import Mathlib

/-!
Verification of the awo::basic_savefmt formatting-state guard (savefmt).

We give a shallow embedding of the guard from the header awo/savefmt.hpp.
Streams are identified by natural-number ids; the formatting configuration
of every stream is collected in a "world" function from stream ids to
configurations.  The copyfmt primitive of the host I/O library is modelled
as reading or writing a whole configuration value at one stream id.

Every operation of the guard is embedded as a pure function that threads
the world through explicitly, returning the (possibly) updated world next
to the updated guard.  Operations that the C++ code performs on the object
pointed to by the this-pointer become functions on a Savefmt value; move
assignment, whose behaviour depends on pointer identity of the two
operands, is embedded over a heap of guards indexed by guard ids, so that
the source's address comparison (&other != this) becomes an id comparison.

The file models variant A of the header (lines 234-473 of savefmt.cpp,
the primary variant cited by the claims) together with the inlined
capture and the move assignment of variant C (lines 878-1112), which the
refinement claims compare against variant A.
-/

/-- A stream formatting configuration: numeric base, case flag, field
width, fill character and float precision, treated by the guard as one
opaque copyable unit (the guard never inspects the fields). -/
structure Fmt where
  base : Nat
  upper : Bool
  width : Nat
  fill : Char
  precision : Nat
deriving DecidableEq, Repr

/-- The formatting configuration of a default-constructed, bufferless
basic_ios holder (what saved_format holds before any capture). -/
def defaultFmt : Fmt := { base := 10, upper := false, width := 0, fill := ' ', precision := 6 }

/-- Streams are identified by natural-number ids. -/
abbrev StreamId := Nat

/-- The world assigns to every stream id its current formatting
configuration. -/
abbrev World := StreamId → Fmt

/-- Applying a configuration onto one stream: the embedding of
stream.copyfmt(holder), as a pointwise update of the world. -/
def setFmt (w : World) (s : StreamId) (f : Fmt) : World :=
  fun i => if i = s then f else w i

/-- The guard object basic_savefmt: an optional non-owning reference to a
bound stream, and the owned snapshot holder saved_format. -/
structure Savefmt where
  bound_stream : Option StreamId := none
  saved_format : Fmt := defaultFmt
deriving DecidableEq, Repr

namespace Savefmt

/-- The member stream(): reports the bound stream, null when inactive. -/
def stream (g : Savefmt) : Option StreamId :=
  g.bound_stream

/-- The capturing constructor basic_savefmt(stream): binds to the given
stream and snapshots its current configuration into saved_format. -/
def ofStream (s : StreamId) (w : World) : Savefmt :=
  { bound_stream := some s, saved_format := w s }

/-- The member restore(also_release) of variant A (savefmt.cpp lines
393-407): when bound, applies saved_format onto the bound stream and, when
also_release is set, unbinds; when unbound, does nothing. -/
def restore (g : Savefmt) (also_release : Bool) (w : World) : Savefmt × World :=
  match g.bound_stream with
  | none => (g, w)
  | some s =>
      let w2 := setFmt w s g.saved_format
      if also_release then ({ g with bound_stream := none }, w2) else (g, w2)

/-- The member capture(stream) of variant A (savefmt.cpp lines 378-389):
first restore() on the currently bound stream, then rebind to the new
stream and re-snapshot its configuration. -/
def capture (g : Savefmt) (s : StreamId) (w : World) : Savefmt × World :=
  let r := g.restore false w
  ({ bound_stream := some s, saved_format := r.2 s }, r.2)

/-- The member capture(stream) of variant C (savefmt.cpp lines 1013-1029):
an inlined null-checked unchecked copyfmt onto the old stream, then rebind
and re-snapshot. -/
def captureC (g : Savefmt) (s : StreamId) (w : World) : Savefmt × World :=
  let w1 :=
    match g.bound_stream with
    | none => w
    | some t => setFmt w t g.saved_format
  ({ bound_stream := some s, saved_format := w1 s }, w1)

/-- The member release() (savefmt.cpp lines 411-416): unconditionally
unbinds; the stream and its configuration are not touched (the world is
threaded through unchanged). -/
def release (g : Savefmt) (w : World) : Savefmt × World :=
  ({ g with bound_stream := none }, w)

/-- The destructor (savefmt.cpp lines 430-435): restore() with no
release; the object then ceases to exist, so only the world remains. -/
def destruct (g : Savefmt) (w : World) : World :=
  (g.restore false w).2

/-- The move constructor (savefmt.cpp lines 348-357): exchanges the bound
stream out of the source and copies the snapshot; returns the new guard,
the moved-from source, and the untouched world. -/
def moveCtor (other : Savefmt) (w : World) : Savefmt × Savefmt × World :=
  ({ bound_stream := other.bound_stream, saved_format := other.saved_format },
   { other with bound_stream := none }, w)

end Savefmt

/-- Guards living in memory are identified by ids, standing for their
addresses, so that the self-assignment check of operator= is expressible. -/
abbrev GuardId := Nat

/-- A heap of guard objects indexed by guard id. -/
abbrev Heap := GuardId → Savefmt

/-- Overwriting one guard object in the heap. -/
def setGuard (h : Heap) (i : GuardId) (g : Savefmt) : Heap :=
  fun j => if j = i then g else h j

/-- The move assignment operator of variant A (savefmt.cpp lines 361-374):
when the operands are distinct objects, the target takes over the source's
bound stream (the source becomes unbound) and copies the source's
snapshot; self-assignment is guarded and does nothing; no stream is
touched (the world is threaded through unchanged). -/
def moveAssign (h : Heap) (self other : GuardId) (w : World) : Heap × World :=
  if other = self then (h, w)
  else
    let o := h other
    (setGuard (setGuard h self { bound_stream := o.bound_stream, saved_format := o.saved_format })
       other { o with bound_stream := none }, w)

/-- The move assignment operator of variant C (savefmt.cpp lines
993-1009), embedded from its own text (it coincides with variant A's). -/
def moveAssignC (h : Heap) (self other : GuardId) (w : World) : Heap × World :=
  if other = self then (h, w)
  else
    let o := h other
    (setGuard (setGuard h self { bound_stream := o.bound_stream, saved_format := o.saved_format })
       other { o with bound_stream := none }, w)

/-- The chained insertion operator (savefmt.cpp lines 456-469): calls
capture(stream) on the temporary guard and returns the same stream. -/
def opInsert (s : StreamId) (g : Savefmt) (w : World) : StreamId × Savefmt × World :=
  let c := g.capture s w
  (s, c.1, c.2)

/-- The chained extraction operator (savefmt.cpp lines 439-452): calls
capture(stream) on the temporary guard and returns the same stream. -/
def opExtract (s : StreamId) (g : Savefmt) (w : World) : StreamId × Savefmt × World :=
  let c := g.capture s w
  (s, c.1, c.2)

/-! Helper lemmas. -/

/-- Re-applying the same configuration onto the same stream twice equals
applying it once. -/
theorem setFmt_setFmt (w : World) (s : StreamId) (f : Fmt) :
    setFmt (setFmt w s f) s f = setFmt w s f := by
  funext i
  by_cases hi : i = s <;> simp [setFmt, hi]

/-- The effect of move construction and of move assignment between the
distinct guards at ids b (target) and a (source): the target takes over
the source's stream and snapshot, the source ends unbound, and no stream
configuration changes. -/
def moveProp (h : Heap) (g : Savefmt) (w : World) (b a : GuardId) : Prop :=
  ((g.moveCtor w).1.stream = g.stream
    ∧ (g.moveCtor w).1.saved_format = g.saved_format
    ∧ (g.moveCtor w).2.1.stream = none
    ∧ (g.moveCtor w).2.2 = w)
  ∧ (((moveAssign h b a w).1 b).stream = (h a).stream
    ∧ ((moveAssign h b a w).1 b).saved_format = (h a).saved_format
    ∧ ((moveAssign h b a w).1 a).stream = none
    ∧ (moveAssign h b a w).2 = w)

/-- Restoring twice in a row without releasing gives the same world as
restoring once, and the guard value is unchanged by restore without
release. -/
def restoreIdemProp (g : Savefmt) (w : World) : Prop :=
  ((g.restore false w).1.restore false (g.restore false w).2).2 = (g.restore false w).2
  ∧ ((g.restore false w).1.restore false (g.restore false w).2).1 = (g.restore false w).1
  ∧ (g.restore false w).1 = g

/-- Move-assigning the guard at id a into the bound guard at id b changes
no stream configuration and overwrites b's binding and snapshot with a's,
in both the variant A and the variant C embeddings. -/
def discardsProp (h : Heap) (b a : GuardId) (w : World) : Prop :=
  (moveAssign h b a w).2 = w
  ∧ (moveAssign h b a w).1 b
      = { bound_stream := (h a).bound_stream, saved_format := (h a).saved_format }
  ∧ (moveAssignC h b a w).2 = w
  ∧ (moveAssignC h b a w).1 b
      = { bound_stream := (h a).bound_stream, saved_format := (h a).saved_format }

/-! The claims. -/

/-- Claim C1: for every stream s with configuration C, binding a guard to
s (capturing constructor or capture), mutating the world arbitrarily, and
then restoring — explicitly or by destroying the still-bound guard —
leaves s's configuration equal to C, the configuration s had at the
moment of binding. -/
theorem savefmt_C1_roundtrip (w wmut : World) (s : StreamId) (g0 : Savefmt) :
    ((Savefmt.ofStream s w).restore false wmut).2 s = w s
    ∧ (Savefmt.ofStream s w).destruct wmut s = w s
    ∧ ((g0.capture s w).1.restore false wmut).2 s = (g0.capture s w).2 s
    ∧ (g0.capture s w).1.destruct wmut s = (g0.capture s w).2 s := by
  refine ⟨?_, ?_, ?_, ?_⟩ <;>
    simp [Savefmt.ofStream, Savefmt.restore, Savefmt.destruct, Savefmt.capture, setFmt]

/-- Claim C2: restore on an unbound guard does nothing to any stream and
signals no error, both for a direct call (with either value of
also_release) and for the destructor-triggered implicit restore. -/
theorem savefmt_C2_unbound_restore (f : Fmt) (w : World) (b : Bool) :
    Savefmt.restore { bound_stream := none, saved_format := f } b w
      = ({ bound_stream := none, saved_format := f }, w)
    ∧ Savefmt.destruct { bound_stream := none, saved_format := f } w = w :=
  ⟨rfl, rfl⟩

/-- Claim C3: after capture the guard is bound to the given stream with
its snapshot equal to that stream's configuration at the moment of the
call, and the world effect of capture is exactly the restore applied to
the previously-bound stream before rebinding. -/
theorem savefmt_C3_capture (g : Savefmt) (s : StreamId) (w : World) :
    (g.capture s w).1.bound_stream = some s
    ∧ (g.capture s w).1.saved_format = (g.capture s w).2 s
    ∧ (g.capture s w).2 = (g.restore false w).2 :=
  ⟨rfl, rfl, rfl⟩

/-- Claim C4: moving a guard (by move construction, or by move assignment
between distinct guards) transfers the bound stream and snapshot to the
destination, leaves the source unbound, and applies no restore to any
stream. -/
theorem savefmt_C4_move (h : Heap) (g : Savefmt) (w : World) (a b : GuardId)
    (hne : a ≠ b) : moveProp h g w b a := by
  refine ⟨⟨rfl, rfl, rfl, rfl⟩, ?_, ?_, ?_, ?_⟩ <;>
    simp [moveAssign, setGuard, Savefmt.stream, hne, Ne.symm hne]

/-- Witness for claim C4 at guard ids 0 and 1. -/
theorem savefmt_C4_move_witness :
    (0 : GuardId) ≠ 1
    ∧ moveProp (fun _ => { bound_stream := some 5, saved_format := defaultFmt })
        { bound_stream := some 3, saved_format := defaultFmt } (fun _ => defaultFmt) 1 0 :=
  ⟨by decide,
   savefmt_C4_move (fun _ => { bound_stream := some 5, saved_format := defaultFmt })
     { bound_stream := some 3, saved_format := defaultFmt } (fun _ => defaultFmt) 0 1
     (by decide)⟩

/-- Claim C5: for a guard bound to stream s, restoring twice in a row
(without releasing) leaves s's configuration — indeed the whole world —
exactly as a single restore does, and the guard remains bound to s. -/
theorem savefmt_C5_restore_idem (g : Savefmt) (s : StreamId) (w : World)
    (hb : g.bound_stream = some s) :
    restoreIdemProp g w ∧ (g.restore false w).1.bound_stream = some s := by
  have h1 : g.restore false w = (g, setFmt w s g.saved_format) := by
    simp [Savefmt.restore, hb]
  refine ⟨⟨?_, ?_, ?_⟩, ?_⟩ <;> simp [h1, Savefmt.restore, hb, setFmt_setFmt]

/-- Witness for claim C5 on a guard bound to stream 2. -/
theorem savefmt_C5_restore_idem_witness :
    ({ bound_stream := some 2, saved_format := defaultFmt } : Savefmt).bound_stream = some 2
    ∧ (restoreIdemProp { bound_stream := some 2, saved_format := defaultFmt } (fun _ => defaultFmt)
      ∧ (({ bound_stream := some 2, saved_format := defaultFmt } : Savefmt).restore false
          (fun _ => defaultFmt)).1.bound_stream = some 2) :=
  ⟨rfl, savefmt_C5_restore_idem { bound_stream := some 2, saved_format := defaultFmt } 2
    (fun _ => defaultFmt) rfl⟩

/-- Claim C6: release unconditionally unbinds without touching any
stream's configuration, is idempotent, and after release the destructor
performs no configuration change. -/
theorem savefmt_C6_release (g : Savefmt) (w w2 : World) :
    (g.release w).1.bound_stream = none
    ∧ (g.release w).2 = w
    ∧ (g.release w).1.release w2 = ((g.release w).1, w2)
    ∧ (g.release w).1.destruct w2 = w2 :=
  ⟨rfl, rfl, rfl, rfl⟩

/-- Claim C7: the chained insertion and extraction operators call capture
on the guard — so afterwards the guard is bound to the stream with its
configuration snapshotted — and return the very same stream. -/
theorem savefmt_C7_chain (s : StreamId) (g : Savefmt) (w : World) :
    opInsert s g w = (s, (g.capture s w).1, (g.capture s w).2)
    ∧ opExtract s g w = (s, (g.capture s w).1, (g.capture s w).2)
    ∧ (opInsert s g w).2.1.bound_stream = some s
    ∧ (opExtract s g w).2.1.bound_stream = some s
    ∧ (opInsert s g w).2.1.saved_format = (opInsert s g w).2.2 s :=
  ⟨rfl, rfl, rfl, rfl, rfl⟩

/-- Claim C8: move-assigning a guard into itself is a no-op on the guard
heap and on every stream's configuration, in both the variant A and the
variant C embeddings. -/
theorem savefmt_C8_self_move (h : Heap) (i : GuardId) (w : World) :
    moveAssign h i i w = (h, w) ∧ moveAssignC h i i w = (h, w) := by
  constructor <;> simp [moveAssign, moveAssignC]

/-- Claim C9: move-assigning guard a into a guard b that is bound to
stream t silently discards b's binding: no stream configuration (in
particular t's) changes, and b ends holding a's binding and snapshot,
its previous snapshot lost. -/
theorem savefmt_C9_discard (h : Heap) (a b : GuardId) (t : StreamId) (w : World)
    (hne : a ≠ b) (hbt : (h b).bound_stream = some t) : discardsProp h b a w := by
  refine ⟨?_, ?_, ?_, ?_⟩ <;>
    simp [moveAssign, moveAssignC, setGuard, hne, Ne.symm hne]

/-- Witness for claim C9: guard 1 bound to stream 7, guard 0 assigned in. -/
theorem savefmt_C9_discard_witness :
    ((0 : GuardId) ≠ 1
      ∧ ((fun _ => ({ bound_stream := some 7, saved_format := defaultFmt } : Savefmt) : Heap) 1).bound_stream
          = some 7)
    ∧ discardsProp (fun _ => { bound_stream := some 7, saved_format := defaultFmt }) 1 0
        (fun _ => defaultFmt) :=
  ⟨⟨by decide, rfl⟩,
   savefmt_C9_discard (fun _ => { bound_stream := some 7, saved_format := defaultFmt }) 0 1 7
     (fun _ => defaultFmt) (by decide) rfl⟩

/-- Claim C10: the variant A capture (through the guarded restore member)
and the variant C capture (inlined null-checked unchecked copyfmt) are
behaviourally equivalent: same final guard and same final world on every
input. -/
theorem savefmt_C10_capture_equiv (g : Savefmt) (s : StreamId) (w : World) :
    g.capture s w = g.captureC s w := by
  cases hb : g.bound_stream <;>
    simp [Savefmt.capture, Savefmt.captureC, Savefmt.restore, hb]
